import Mathlib

/-!
Shallow embedding of the connection-establishment (handshake) core of the
go-mysql client, together with the GTID-set factory of the mysql package.

Modelling conventions:
  * Go byte slices are List Nat (each element a byte value).
  * Go strings are Lean String; their byte form is strBytes (one Nat per
    character, faithful for the ASCII data the protocol carries here).
  * A Go runtime panic (out-of-range index or slice) is modelled as the
    value none of an Option-typed result; an error return is Except.error.
  * Machine integers are Nat; bitwise Go operators are Nat.lor, Nat.land
    and andNot (Go's AND-NOT operator).
  * External collaborators that live outside the translated sources
    (cryptographic primitives, the collation lookup, the TLS handshake,
    the flavor-specific GTID parsers) are parameters of the functions
    that call them, matching the interface boundary of the spec.
-/

namespace GoMysql

/-- Error values returned by the handshake core.  Each constructor stands for
one distinct error construction site of the source. -/
inductive GoErr where
  /-- server sent an ERR packet; its decoding is delegated externally -/
  | serverError : GoErr
  /-- wrong protocol version byte; the flag records whether it was the
      X-protocol marker (which produces the more specific message) -/
  | invalidProtocolVersion (b : Nat) (isXProtocol : Bool) : GoErr
  /-- a mandatory 0x00 byte was not found where expected -/
  | expectedZeroByte (context : String) (got : Nat) : GoErr
  /-- server lacks CLIENT_PROTOCOL_41 -/
  | unsupportedProtocol41 : GoErr
  /-- client wants TLS but server lacks CLIENT_SSL -/
  | tlsUnsupported : GoErr
  /-- auth plugin data length byte nonzero without CLIENT_PLUGIN_AUTH -/
  | invalidAuthPluginDataFiller (n : Nat) : GoErr
  /-- mysql.ErrMalformPacket -/
  | malformPacket : GoErr
  /-- auth plugin not in the supported set (genAuthResponse default branch) -/
  | unsupportedAuthPlugin (name : String) : GoErr
  /-- auth plugin rejected before capability computation (writeAuthHandshake) -/
  | unknownAuthPlugin (name : String) : GoErr
  /-- collation name lookup failed -/
  | invalidCollation (name : String) : GoErr
  /-- GTID factory got a flavor other than mysql or mariadb -/
  | invalidFlavor (flavor : String) : GoErr
  /-- opaque error propagated from an external collaborator -/
  | external (tag : String) : GoErr
deriving Repr, DecidableEq

/-- Decidable equality for Except results, used to evaluate the model on
concrete inputs. -/
instance exceptDecidableEq {e a : Type} [DecidableEq e] [DecidableEq a] :
    DecidableEq (Except e a) := fun x y =>
  match x, y with
  | .ok v, .ok w => decidable_of_iff (v = w) (by simp)
  | .error v, .error w => decidable_of_iff (v = w) (by simp)
  | .ok _, .error _ => .isFalse fun hh => Except.noConfusion hh
  | .error _, .ok _ => .isFalse fun hh => Except.noConfusion hh

/-! ## Protocol constants

Modelled from the spec: the capability bit constants, protocol version
markers, auth plugin identifiers, flavor names and the default collation
name belong to the repository's mysql package, which is not among the
translated sources; their values are the standard MySQL client/server
protocol values the spec refers to. -/

def CLIENT_LONG_PASSWORD : Nat := 1 <<< 0
def CLIENT_FOUND_ROWS : Nat := 1 <<< 1
def CLIENT_LONG_FLAG : Nat := 1 <<< 2
def CLIENT_CONNECT_WITH_DB : Nat := 1 <<< 3
def CLIENT_COMPRESS : Nat := 1 <<< 5
def CLIENT_LOCAL_FILES : Nat := 1 <<< 7
def CLIENT_IGNORE_SPACE : Nat := 1 <<< 8
def CLIENT_PROTOCOL_41 : Nat := 1 <<< 9
def CLIENT_SSL : Nat := 1 <<< 11
def CLIENT_TRANSACTIONS : Nat := 1 <<< 13
def CLIENT_SECURE_CONNECTION : Nat := 1 <<< 15
def CLIENT_MULTI_STATEMENTS : Nat := 1 <<< 16
def CLIENT_MULTI_RESULTS : Nat := 1 <<< 17
def CLIENT_PS_MULTI_RESULTS : Nat := 1 <<< 18
def CLIENT_PLUGIN_AUTH : Nat := 1 <<< 19
def CLIENT_CONNECT_ATTRS : Nat := 1 <<< 20
def CLIENT_PLUGIN_AUTH_LENENC_CLIENT_DATA : Nat := 1 <<< 21
def CLIENT_ZSTD_COMPRESSION_ALGORITHM : Nat := 1 <<< 26
def CLIENT_QUERY_ATTRIBUTES : Nat := 1 <<< 27

def ERR_HEADER : Nat := 0xff
def ClassicProtocolVersion : Nat := 10
def XProtocolVersion : Nat := 11

def AUTH_NATIVE_PASSWORD : String := "mysql_native_password"
def AUTH_SHA256_PASSWORD : String := "sha256_password"
def AUTH_CACHING_SHA2_PASSWORD : String := "caching_sha2_password"
def AUTH_CLEAR_PASSWORD : String := "mysql_clear_password"
def AUTH_MARIADB_ED25519 : String := "client_ed25519"

def MySQLFlavor : String := "mysql"
def MariaDBFlavor : String := "mariadb"

def DEFAULT_COLLATION_NAME : String := "utf8mb4_general_ci"

/-! ## Byte-level helpers -/

/-- Byte sequence of a Go string (one Nat per character; faithful for the
ASCII identifiers and credentials the handshake serializes). -/
def strBytes (s : String) : List Nat := s.data.map Char.toNat

/-- Little-endian value of a byte list (binary.LittleEndian.UintNN). -/
def leNat (bs : List Nat) : Nat := bs.foldr (fun b acc => b + 256 * acc) 0

/-- Little-endian 4-byte serialization of a 32-bit value, as the four
byte(x shift) stores of the source. -/
def uint32LE (n : Nat) : List Nat :=
  [n % 256, (n >>> 8) % 256, (n >>> 16) % 256, (n >>> 24) % 256]

/-- Reading n bytes off the front of the buffer: some (head, rest) when the
buffer holds at least n bytes, none when a Go slice expression
data[pos : pos+n] would panic. -/
def takeN (n : Nat) (l : List Nat) : Option (List Nat × List Nat) :=
  if n ≤ l.length then some (l.take n, l.drop n) else none

/-- Position of the first 0x00 byte (bytes.IndexByte data 0); none when the
byte is absent, where the Go call returns -1. -/
def indexByte0 : List Nat → Option Nat
  | [] => none
  | b :: r => if b = 0 then some 0 else (indexByte0 r).map (· + 1)

/-- Modelled from the spec: mysql.AppendLengthEncodedInteger of the
repository's mysql package (not among the translated sources).  The
length-encoded-integer bytes of n: one byte for values up to 250,
otherwise a marker byte followed by 2, 3 or 8 little-endian bytes.
The Go function appends to a caller buffer; the model returns just the
appended bytes. -/
def AppendLengthEncodedInteger (n : Nat) : List Nat :=
  if n ≤ 250 then [n]
  else if n ≤ 0xffff then [0xfc, n % 256, (n >>> 8) % 256]
  else if n ≤ 0xffffff then [0xfd, n % 256, (n >>> 8) % 256, (n >>> 16) % 256]
  else [0xfe, n % 256, (n >>> 8) % 256, (n >>> 16) % 256, (n >>> 24) % 256,
        (n >>> 32) % 256, (n >>> 40) % 256, (n >>> 48) % 256, (n >>> 56) % 256]

/-- Modelled from the spec: mysql.PutLengthEncodedInt (same encoding,
fresh buffer). -/
def PutLengthEncodedInt (n : Nat) : List Nat := AppendLengthEncodedInteger n

/-- Modelled from the spec: mysql.PutLengthEncodedString, a
length-encoded byte count followed by the bytes. -/
def PutLengthEncodedString (b : List Nat) : List Nat :=
  PutLengthEncodedInt b.length ++ b

/-- Go's AND-NOT operator x &^ y, written with kernel-computable bitwise
primitives (identical to Nat.ldiff bit for bit). -/
def andNot (x y : Nat) : Nat := x &&& (x ^^^ y)

/-- Bitwise characterization of andNot: a bit survives x &^ y exactly when
x has it and y does not. -/
theorem andNot_testBit (x y k : Nat) :
    (andNot x y).testBit k = (x.testBit k && !y.testBit k) := by
  simp only [andNot, Nat.testBit_land, Nat.testBit_xor]
  cases x.testBit k <;> cases y.testBit k <;> rfl

/-! ## Connection state -/

/-- Client connection state: the fields of the Go Conn that the handshake
core reads or writes.  sequence is the packet sequence counter of the
embedded packet-layer connection. -/
structure Conn where
  serverVersion : String
  connectionID : Nat
  salt : List Nat
  capability : Nat
  status : Nat
  authPluginName : String
  tlsConfig : Bool
  proto : String
  user : String
  password : String
  db : String
  ccaps : Nat
  clientExplicitOffCaps : Nat
  attributes : List (String × String)
  collation : String
  sequence : Nat
deriving Repr, DecidableEq

/-- Fresh connection with everything empty or zero. -/
def emptyConn : Conn :=
  { serverVersion := "", connectionID := 0, salt := [], capability := 0,
    status := 0, authPluginName := "", tlsConfig := false, proto := "tcp",
    user := "", password := "", db := "", ccaps := 0,
    clientExplicitOffCaps := 0, attributes := [], collation := "",
    sequence := 0 }

def defaultAuthPluginName : String := AUTH_NATIVE_PASSWORD

def supportedAuthPlugins : List String :=
  [AUTH_NATIVE_PASSWORD, AUTH_SHA256_PASSWORD, AUTH_CACHING_SHA2_PASSWORD,
   AUTH_MARIADB_ED25519]

/-- helper function to determine what auth methods are allowed by this client -/
def authPluginAllowed (pluginName : String) : Bool :=
  supportedAuthPlugins.contains pluginName

/-! ## Handshake Parser (readInitialHandshake) -/

/-- Final step of readInitialHandshake: if the server gave no auth plugin
name, fall back to the client default. -/
def applyDefaultPlugin (c : Conn) : Conn :=
  if c.authPluginName = "" then { c with authPluginName := defaultAuthPluginName }
  else c

/-- Plugin-name section at the end of the extended handshake packet: a
zero-terminated name when CLIENT_PLUGIN_AUTH is negotiated, then the
default-plugin fallback and the successful return of readInitialHandshake. -/
def readInitialHandshakePlugin (c : Conn) (rem : List Nat) : Option (Except GoErr Conn) :=
  if c.capability &&& CLIENT_PLUGIN_AUTH ≠ 0 then
    match indexByte0 rem with
    | none => none
    | some i =>
      let c := { c with authPluginName := String.mk ((rem.take i).map Char.ofNat) }
      match (rem.drop i).head? with
      | none => none
      | some b =>
        if b ≠ 0 then some (.error (.expectedZeroByte "authPluginName" b))
        else some (.ok (applyDefaultPlugin c))
  else some (.ok (applyDefaultPlugin c))

/-- Tail of the extended handshake packet after the 10 reserved bytes:
optional challenge part 2 (under CLIENT_SECURE_CONNECTION), then the
plugin-name section. -/
def readInitialHandshakeTail (c : Conn) (authPluginDataLen : Nat) (rem : List Nat) :
    Option (Except GoErr Conn) :=
  if c.capability &&& CLIENT_SECURE_CONNECTION ≠ 0 then
    -- rest := int(authPluginDataLen) - 8; if rest < 13 { rest = 13 }
    let rest := max 13 (authPluginDataLen - 8)
    match takeN (rest - 1) rem with
    | none => none
    | some (authPluginDataPart2, rem2) =>
      -- pos += rest consumes one byte beyond the slice, without reading it
      let c := { c with salt := c.salt ++ authPluginDataPart2 }
      readInitialHandshakePlugin c (rem2.drop 1)
  else readInitialHandshakePlugin c rem

/-- Parser for the server's initial handshake packet, translated statement
by statement from readInitialHandshake.  The buffer position of the source
is modelled by the remaining suffix of the byte list (the source advances
pos strictly left to right).  Result none models a Go runtime panic
(out-of-range index or slice). -/
def readInitialHandshake (c : Conn) (data : List Nat) : Option (Except GoErr Conn) :=
  match data with
  | [] => none
  | b0 :: rest =>
    if b0 = ERR_HEADER then some (.error .serverError)
    else if b0 ≠ ClassicProtocolVersion then
      some (.error (.invalidProtocolVersion b0 (b0 = XProtocolVersion)))
    else
      -- version := data[pos : bytes.IndexByte(data[pos:], 0x00)+1]; with
      -- pos = 1 this is the bytes strictly before the first zero byte, and
      -- IndexByte returning -1 makes the slice data[1:0] panic.
      match indexByte0 rest with
      | none => none
      | some i =>
        let c := { c with serverVersion := String.mk ((rest.take i).map Char.ofNat) }
        let rem := rest.drop (i + 1)
        match takeN 4 rem with
        | none => none
        | some (cid, rem) =>
          let c := { c with connectionID := leNat cid }
          match takeN 8 rem with
          | none => none
          | some (salt1, rem) =>
            let c := { c with salt := salt1 }
            match rem with
            | [] => none
            | b :: rem =>
              if b ≠ 0 then some (.error (.expectedZeroByte "scramble" b))
              else
                match takeN 2 rem with
                | none => none
                | some (capLo, rem) =>
                  let c := { c with capability := leNat capLo }
                  if c.capability &&& CLIENT_PROTOCOL_41 = 0 then
                    some (.error .unsupportedProtocol41)
                  else if c.capability &&& CLIENT_SSL = 0 && c.tlsConfig then
                    some (.error .tlsUnsupported)
                  else
                    match rem with
                    | [] => some (.ok (applyDefaultPlugin c))
                    | _charset :: rem =>
                      match takeN 2 rem with
                      | none => none
                      | some (st, rem) =>
                        let c := { c with status := leNat st }
                        match takeN 2 rem with
                        | none => none
                        | some (capHi, rem) =>
                          let c := { c with capability := (leNat capHi) <<< 16 ||| c.capability }
                          match rem with
                          | [] => none
                          | authPluginDataLen :: rem =>
                            if c.capability &&& CLIENT_PLUGIN_AUTH = 0 && authPluginDataLen > 0 then
                              some (.error (.invalidAuthPluginDataFiller authPluginDataLen))
                            else
                              let rem := rem.drop 10
                              readInitialHandshakeTail c authPluginDataLen rem

/-- Salt of a successful parse, none on error or crash. -/
def parsedSalt : Option (Except GoErr Conn) → Option (List Nat)
  | some (.ok c) => some c.salt
  | _ => none

/-! ## External collaborators of the handshake core -/

/-- External collaborators of the handshake core, specified only at their
interface boundary (spec section 6): the cryptographic primitives, the
collation lookup and the outcome of the transport-security handshake.
The handshake functions are parametric in them, so every theorem below
holds for every possible implementation. -/
structure Ext where
  /-- mysql.CalcPassword scramble password -/
  calcPassword : List Nat → List Nat → List Nat
  /-- mysql.CalcCachingSha2Password scramble password -/
  calcCachingSha2Password : List Nat → List Nat → List Nat
  /-- mysql.CalcEd25519Password scramble password, fallible -/
  calcEd25519Password : List Nat → List Nat → Except GoErr (List Nat)
  /-- charset.GetCollationByName: collation identifier, none on lookup failure -/
  getCollation : String → Option Nat
  /-- outcome of tlsConn.Handshake() -/
  tlsHandshake : Except GoErr Unit

/-! ## Auth Response Generator (genAuthResponse) -/

/-- Generator of the auth response bytes, translated case by case from
genAuthResponse.  Returns the response bytes and the add-a-trailing-zero
flag.  Result none models the Go panic of authData[:20] on a challenge
shorter than 20 bytes. -/
def genAuthResponse (ext : Ext) (c : Conn) (authData : List Nat) :
    Option (Except GoErr (List Nat × Bool)) :=
  if c.authPluginName = AUTH_NATIVE_PASSWORD then
    match takeN 20 authData with
    | none => none
    | some (first20, _) =>
      some (.ok (ext.calcPassword first20 (strBytes c.password), false))
  else if c.authPluginName = AUTH_CACHING_SHA2_PASSWORD then
    some (.ok (ext.calcCachingSha2Password authData (strBytes c.password), false))
  else if c.authPluginName = AUTH_CLEAR_PASSWORD then
    some (.ok (strBytes c.password, true))
  else if c.authPluginName = AUTH_SHA256_PASSWORD then
    if c.password.length = 0 then
      some (.ok ([], true))
    else if c.tlsConfig || c.proto = "unix" then
      -- write cleartext auth packet
      some (.ok (strBytes c.password, true))
    else
      -- request public key from server
      some (.ok ([1], false))
  else if c.authPluginName = AUTH_MARIADB_ED25519 then
    if authData.length ≠ 32 then some (.error .malformPacket)
    else
      match ext.calcEd25519Password authData (strBytes c.password) with
      | .error e => some (.error e)
      | .ok res => some (.ok (res, false))
  else
    some (.error (.unsupportedAuthPlugin c.authPluginName))

/-! ## Handshake Response Builder (writeAuthHandshake) -/

/-- Connection-attributes block of the response packet (genAttributes):
empty when no attributes are configured, otherwise a length-encoded total
byte count followed by length-encoded key/value pairs. -/
def genAttributes (c : Conn) : List Nat :=
  if c.attributes.length = 0 then []
  else
    let attrData := c.attributes.foldl
      (fun acc kv =>
        acc ++ PutLengthEncodedString (strBytes kv.1)
            ++ PutLengthEncodedString (strBytes kv.2)) []
    PutLengthEncodedInt attrData.length ++ attrData

/-- Capability flags after the fixed baseline, the server-gated bits, the
client-requested optional bits, the explicit exclusion (Go AND-NOT) and
the SSL bit: lines of writeAuthHandshake up to the genAuthResponse call. -/
def capabilityWithSSL (c : Conn) : Nat :=
  let capability :=
    CLIENT_PROTOCOL_41 ||| CLIENT_SECURE_CONNECTION |||
    CLIENT_LONG_PASSWORD ||| CLIENT_TRANSACTIONS ||| CLIENT_PLUGIN_AUTH
  let capability := capability ||| (c.capability &&& CLIENT_LONG_FLAG)
  let capability := capability ||| (c.capability &&& CLIENT_QUERY_ATTRIBUTES)
  let capability := capability |||
    (c.ccaps &&& CLIENT_FOUND_ROWS) ||| (c.ccaps &&& CLIENT_IGNORE_SPACE) |||
    (c.ccaps &&& CLIENT_MULTI_STATEMENTS) ||| (c.ccaps &&& CLIENT_MULTI_RESULTS) |||
    (c.ccaps &&& CLIENT_PS_MULTI_RESULTS) ||| (c.ccaps &&& CLIENT_CONNECT_ATTRS) |||
    (c.ccaps &&& CLIENT_COMPRESS) ||| (c.ccaps &&& CLIENT_ZSTD_COMPRESSION_ALGORITHM) |||
    (c.ccaps &&& CLIENT_LOCAL_FILES)
  let capability := andNot capability c.clientExplicitOffCaps
  if c.tlsConfig then capability ||| CLIENT_SSL else capability

/-- Final negotiated capability flags serialized into the response packet:
capabilityWithSSL plus the length-encoded-auth bit (when the auth response
needs a multi-byte length prefix), the connect-with-db bit (when a
database name is configured) and the connect-attrs bit (when the
attribute block is non-empty), in source order. -/
def finalCapability (c : Conn) (authLen attrLen : Nat) : Nat :=
  let capability := capabilityWithSSL c
  let capability :=
    if (AppendLengthEncodedInteger authLen).length > 1 then
      capability ||| CLIENT_PLUGIN_AUTH_LENENC_CLIENT_DATA
    else capability
  let capability :=
    if 0 < (strBytes c.db).length then capability ||| CLIENT_CONNECT_WITH_DB
    else capability
  if 0 < attrLen then capability ||| CLIENT_CONNECT_ATTRS else capability

/-- Value of the length variable of writeAuthHandshake: the declared
payload size of the response packet (note the hard-coded 21-byte plugin
name slot of the source). -/
def hsLength (c : Conn) (authRespLEILen authLen : Nat) (addNull : Bool)
    (attrLen : Nat) : Nat :=
  4 + 4 + 1 + 23 + (strBytes c.user).length + 1 + authRespLEILen + authLen + 21 + 1
  + (if addNull then 1 else 0)
  + (if 0 < (strBytes c.db).length then (strBytes c.db).length + 1 else 0)
  + attrLen
  + (if 0 < c.ccaps &&& CLIENT_ZSTD_COMPRESSION_ALGORITHM then 1 else 0)

/-- Concatenation of the sections writeAuthHandshake actually stores into
the packet buffer, in write order: capability flags, max-packet size,
collation byte, 23 filler bytes, zero-terminated user, length-prefixed
auth response with optional extra zero, optional zero-terminated database
name, zero-terminated plugin name, attribute block, optional
zstd compression level byte 0x03. -/
def hsSections (c : Conn) (capability collByte : Nat)
    (authRespLEI auth : List Nat) (addNull : Bool) (attrData : List Nat) : List Nat :=
  uint32LE capability ++ [0, 0, 0, 0] ++ [collByte] ++ List.replicate 23 0
  ++ strBytes c.user ++ [0]
  ++ authRespLEI ++ auth ++ (if addNull then [0] else [])
  ++ (if 0 < (strBytes c.db).length then strBytes c.db ++ [0] else [])
  ++ strBytes c.authPluginName ++ [0]
  ++ attrData
  ++ (if 0 < c.ccaps &&& CLIENT_ZSTD_COMPRESSION_ALGORITHM then [3] else [])

/-- Observable steps of writeAuthHandshake: packet writes (with the
sequence number the packet carries and the payload bytes) and the start of
the transport-security handshake. -/
inductive HsEvent where
  | wrote (seq : Nat) (payload : List Nat) : HsEvent
  | tlsStart : HsEvent
deriving Repr, DecidableEq

/-- Payload of the full handshake-response packet: the sections stored by
writeAuthHandshake followed by the zero tail of the declared length
(data := make([]byte, length+4) pre-zeroes the buffer, so the bytes the
section writes do not reach stay zero). -/
def hsFullPayload (c : Conn) (auth : List Nat) (addNull : Bool) (collID : Nat) : List Nat :=
  let authRespLEI := AppendLengthEncodedInteger auth.length
  let attrData := genAttributes c
  let capability := finalCapability c auth.length attrData.length
  let length := hsLength c authRespLEI.length auth.length addNull attrData.length
  let sections := hsSections c capability (collID &&& 0xff) authRespLEI auth addNull attrData
  sections ++ List.replicate (length - sections.length) 0

/-- Builder and writer of the handshake response packet, translated from
writeAuthHandshake.  The packet layer (spec section 6, not among the
translated sources) is modelled from the spec: each WritePacket call
frames one payload, stamps the current sequence number and increments it;
the transport swap builds a fresh packet connection (sequence 0) and the
source then restores the saved counter.  The result carries the event
trace and the final connection state; error paths drop the trace, and
none models a Go panic propagated from genAuthResponse. -/
def writeAuthHandshake (ext : Ext) (c : Conn) :
    Option (Except GoErr (List HsEvent × Conn)) :=
  if ¬ authPluginAllowed c.authPluginName then
    some (.error (.unknownAuthPlugin c.authPluginName))
  else
    match genAuthResponse ext c c.salt with
    | none => none
    | some (.error e) => some (.error e)
    | some (.ok (auth, addNull)) =>
      let collationName := if c.collation.length = 0 then DEFAULT_COLLATION_NAME else c.collation
      match ext.getCollation collationName with
      | none => some (.error (.invalidCollation collationName))
      | some collID =>
        let payload := hsFullPayload c auth addNull collID
        if c.tlsConfig then
          -- SSL request packet: data[:(4+4+1+23)+4], a 32-byte payload
          let sslRequest := payload.take (4 + 4 + 1 + 23)
          match ext.tlsHandshake with
          | .error e => some (.error e)
          | .ok () =>
            -- swap to the TLS transport; the fresh packet connection
            -- starts at sequence 0 and the saved counter is restored
            some (.ok ([.wrote c.sequence sslRequest, .tlsStart,
                        .wrote (c.sequence + 1) payload],
                       { c with sequence := c.sequence + 2 }))
        else
          some (.ok ([.wrote c.sequence payload],
                     { c with sequence := c.sequence + 1 }))

/-- Payload lengths of the packets a writeAuthHandshake run wrote, none
when the run failed. -/
def payloadLengths : Option (Except GoErr (List HsEvent × Conn)) → Option (List Nat)
  | some (.ok (evs, _)) =>
    some (evs.filterMap fun e => match e with
      | .wrote _ p => some p.length
      | .tlsStart => none)
  | _ => none

/-! ## GTID set factory (mysql/gtid.go) -/

/-- Factory for replication position sets, translated from ParseGTIDSet.
The two flavor-specific parsers are external to the translated sources
(modelled from the spec as parameters), and the result type is abstract. -/
def ParseGTIDSet {α : Type} (parseMysqlGTIDSet parseMariadbGTIDSet : String → Except GoErr α)
    (flavor s : String) : Except GoErr α :=
  if flavor = MySQLFlavor then parseMysqlGTIDSet s
  else if flavor = MariaDBFlavor then parseMariadbGTIDSet s
  else .error (.invalidFlavor flavor)

/-! ## Concrete fixtures for witnesses and counterexamples -/

/-- Implementation of the external collaborators used by the concrete
witnesses; any other implementation would do, since every theorem that
depends on Ext quantifies over it or ignores the relevant field. -/
def ext0 : Ext :=
  { calcPassword := fun _ _ => [9, 9],
    calcCachingSha2Password := fun _ _ => [8, 8],
    calcEd25519Password := fun _ _ => .ok [7],
    getCollation := fun _ => some 255,
    tlsHandshake := .ok () }

/-- Connection negotiated to the sha256-password plugin. -/
def connSha256 : Conn := { emptyConn with authPluginName := AUTH_SHA256_PASSWORD }

/-- Connection negotiated to the mariadb-ed25519 plugin. -/
def connEd25519 : Conn := { emptyConn with authPluginName := AUTH_MARIADB_ED25519 }

/-- Connection negotiated to the native-password plugin. -/
def connNative : Conn := { emptyConn with authPluginName := AUTH_NATIVE_PASSWORD }

/-! ## Theorems -/

/-- C6: for the sha256-password plugin, an empty password yields an empty
response with the trailing-zero flag set; a non-empty password without TLS
on a non-unix transport yields exactly the sentinel byte 0x01 with the
trailing-zero flag clear. -/
theorem genAuthResponse_sha256_cases (ext : Ext) (c : Conn) (authData : List Nat)
    (hname : c.authPluginName = AUTH_SHA256_PASSWORD) :
    (c.password = "" → genAuthResponse ext c authData = some (.ok ([], true))) ∧
    (c.password ≠ "" → c.tlsConfig = false → c.proto ≠ "unix" →
      genAuthResponse ext c authData = some (.ok ([1], false))) := by
  have h1 : ¬ (AUTH_SHA256_PASSWORD = AUTH_NATIVE_PASSWORD) := by decide
  have h2 : ¬ (AUTH_SHA256_PASSWORD = AUTH_CACHING_SHA2_PASSWORD) := by decide
  have h3 : ¬ (AUTH_SHA256_PASSWORD = AUTH_CLEAR_PASSWORD) := by decide
  constructor
  · intro hp
    simp [genAuthResponse, hname, hp, h1, h2, h3]
  · intro hp htls hproto
    have hlen : c.password.length ≠ 0 := by
      intro h0
      exact hp (String.ext (List.length_eq_zero.mp h0))
    simp [genAuthResponse, hname, h1, h2, h3, hlen, htls, hproto]

/-- Closed witness for genAuthResponse_sha256_cases at concrete inputs:
both the empty-password case and the sentinel case. -/
theorem genAuthResponse_sha256_cases_witness :
    genAuthResponse ext0 connSha256 [] = some (.ok ([], true)) ∧
    genAuthResponse ext0 { connSha256 with password := "p" } [] = some (.ok ([1], false)) :=
  ⟨(genAuthResponse_sha256_cases ext0 connSha256 [] rfl).1 rfl,
   (genAuthResponse_sha256_cases ext0 { connSha256 with password := "p" } [] rfl).2
     (by decide) rfl (by decide)⟩

/-- C7: for the mariadb-ed25519 plugin, a challenge whose length differs
from 32 bytes fails with MalformedPacket; the result is the same for every
possible Ed25519 primitive (the Ext is universally quantified), so the
signature primitive is not invoked. -/
theorem genAuthResponse_ed25519_badLength (ext : Ext) (c : Conn) (authData : List Nat)
    (hname : c.authPluginName = AUTH_MARIADB_ED25519)
    (hlen : authData.length ≠ 32) :
    genAuthResponse ext c authData = some (.error .malformPacket) := by
  have h1 : ¬ (AUTH_MARIADB_ED25519 = AUTH_NATIVE_PASSWORD) := by decide
  have h2 : ¬ (AUTH_MARIADB_ED25519 = AUTH_CACHING_SHA2_PASSWORD) := by decide
  have h3 : ¬ (AUTH_MARIADB_ED25519 = AUTH_CLEAR_PASSWORD) := by decide
  have h4 : ¬ (AUTH_MARIADB_ED25519 = AUTH_SHA256_PASSWORD) := by decide
  simp [genAuthResponse, hname, h1, h2, h3, h4, hlen]

/-- Closed witness for genAuthResponse_ed25519_badLength: a 31-byte
challenge fails with MalformedPacket. -/
theorem genAuthResponse_ed25519_badLength_witness :
    genAuthResponse ext0 connEd25519 (List.replicate 31 5) = some (.error .malformPacket) :=
  genAuthResponse_ed25519_badLength ext0 connEd25519 (List.replicate 31 5) rfl (by decide)

/-- C10: for the native-password plugin genAuthResponse slices the first
20 challenge bytes unconditionally; it panics (result none) exactly when
the challenge is shorter than 20 bytes, which is the case for the 8-byte
challenge a server without the secure-connection capability produces. -/
theorem genAuthResponse_native_panics_iff (ext : Ext) (c : Conn) (authData : List Nat)
    (hname : c.authPluginName = AUTH_NATIVE_PASSWORD) :
    genAuthResponse ext c authData = none ↔ authData.length < 20 := by
  simp only [genAuthResponse, hname, if_pos rfl, takeN]
  by_cases h : 20 ≤ authData.length
  · rw [if_pos h]
    simp
    omega
  · rw [if_neg h]
    simp
    omega

/-- Closed witness for genAuthResponse_native_panics_iff: an 8-byte
challenge (the part-1-only salt of a non-secure-connection handshake)
makes the native-password branch panic, while a 20-byte challenge does
not. -/
theorem genAuthResponse_native_panics_iff_witness :
    genAuthResponse ext0 connNative (List.replicate 8 1) = none ∧
    genAuthResponse ext0 connNative (List.replicate 20 1) ≠ none :=
  ⟨(genAuthResponse_native_panics_iff ext0 connNative (List.replicate 8 1) rfl).mpr (by decide),
   fun h =>
     absurd ((genAuthResponse_native_panics_iff ext0 connNative (List.replicate 20 1) rfl).mp h)
       (by decide)⟩

/-- C9: the GTID-set factory dispatches mysql and mariadb to the
respective flavor parser unchanged and fails with an invalid-flavor error
on every other flavor string. -/
theorem ParseGTIDSet_dispatch {α : Type}
    (pm pma : String → Except GoErr α) (flavor s : String) :
    (flavor ≠ MySQLFlavor → flavor ≠ MariaDBFlavor →
      ParseGTIDSet pm pma flavor s = .error (.invalidFlavor flavor)) ∧
    ParseGTIDSet pm pma MySQLFlavor s = pm s ∧
    ParseGTIDSet pm pma MariaDBFlavor s = pma s := by
  refine ⟨fun h1 h2 => ?_, ?_, ?_⟩
  · simp [ParseGTIDSet, h1, h2]
  · simp [ParseGTIDSet]
  · simp [ParseGTIDSet, MariaDBFlavor, MySQLFlavor]

/-- Closed witness for ParseGTIDSet_dispatch: the flavor string tidb is
rejected with an invalid-flavor error. -/
theorem ParseGTIDSet_dispatch_witness :
    ParseGTIDSet (fun _ => .ok ()) (fun _ => .ok ()) "tidb" "x"
      = .error (.invalidFlavor "tidb") :=
  (ParseGTIDSet_dispatch (fun _ => .ok ()) (fun _ => .ok ()) "tidb" "x").1
    (by decide) (by decide)

/-- Length-encoded integers use a single byte exactly up to 250. -/
theorem appendLEI_length_one (n : Nat) :
    (AppendLengthEncodedInteger n).length = 1 ↔ n ≤ 250 := by
  unfold AppendLengthEncodedInteger
  split_ifs with h1 h2 h3 <;> simp <;> omega

/-- C8: the serialized capability flags carry the
length-encoded-auth-field bit exactly when the auth response exceeds 250
bytes, which is exactly when the length prefix needs more than one byte. -/
theorem finalCapability_lenenc_bit (c : Conn) (authLen attrLen : Nat) :
    (finalCapability c authLen attrLen).testBit 21 = decide (250 < authLen) ∧
    ((AppendLengthEncodedInteger authLen).length = 1 ↔ authLen ≤ 250) := by
  refine ⟨?_, appendLEI_length_one authLen⟩
  have hone : (AppendLengthEncodedInteger authLen).length = 1 ↔ authLen ≤ 250 :=
    appendLEI_length_one authLen
  have hlen1 : 1 ≤ (AppendLengthEncodedInteger authLen).length := by
    unfold AppendLengthEncodedInteger
    split_ifs <;> simp
  have hle : CLIENT_PLUGIN_AUTH_LENENC_CLIENT_DATA.testBit 21 = true := by decide
  have hdbb : CLIENT_CONNECT_WITH_DB.testBit 21 = false := by decide
  have hsslb : CLIENT_SSL.testBit 21 = false := by decide
  have h41 : CLIENT_PROTOCOL_41.testBit 21 = false := by decide
  have hsc : CLIENT_SECURE_CONNECTION.testBit 21 = false := by decide
  have hlp : CLIENT_LONG_PASSWORD.testBit 21 = false := by decide
  have htr : CLIENT_TRANSACTIONS.testBit 21 = false := by decide
  have hpa : CLIENT_PLUGIN_AUTH.testBit 21 = false := by decide
  have hlf : CLIENT_LONG_FLAG.testBit 21 = false := by decide
  have hqa : CLIENT_QUERY_ATTRIBUTES.testBit 21 = false := by decide
  have hfr : CLIENT_FOUND_ROWS.testBit 21 = false := by decide
  have his : CLIENT_IGNORE_SPACE.testBit 21 = false := by decide
  have hms : CLIENT_MULTI_STATEMENTS.testBit 21 = false := by decide
  have hmr : CLIENT_MULTI_RESULTS.testBit 21 = false := by decide
  have hps : CLIENT_PS_MULTI_RESULTS.testBit 21 = false := by decide
  have hca : CLIENT_CONNECT_ATTRS.testBit 21 = false := by decide
  have hcp : CLIENT_COMPRESS.testBit 21 = false := by decide
  have hzs : CLIENT_ZSTD_COMPRESSION_ALGORITHM.testBit 21 = false := by decide
  have hlo : CLIENT_LOCAL_FILES.testBit 21 = false := by decide
  simp only [finalCapability, capabilityWithSSL]
  by_cases hauth : 250 < authLen
  · have hne : ¬ (AppendLengthEncodedInteger authLen).length = 1 := by
      rw [hone]; omega
    rw [if_pos (show (AppendLengthEncodedInteger authLen).length > 1 by omega)]
    split_ifs <;>
      simp [Nat.testBit_lor, Nat.testBit_land, andNot_testBit, hle, hdbb, hsslb,
        h41, hsc, hlp, htr, hpa, hlf, hqa, hfr, his, hms, hmr,
        hps, hca, hcp, hzs, hlo, hauth]
  · have hl1 : (AppendLengthEncodedInteger authLen).length = 1 := hone.mpr (by omega)
    rw [if_neg (show ¬ (AppendLengthEncodedInteger authLen).length > 1 by omega)]
    split_ifs <;>
      simp [Nat.testBit_lor, Nat.testBit_land, andNot_testBit, hle, hdbb, hsslb,
        h41, hsc, hlp, htr, hpa, hlf, hqa, hfr, his, hms, hmr,
        hps, hca, hcp, hzs, hlo, hauth]

/-- Connection with a requested and simultaneously excluded
connect-attrs capability and a non-empty attribute mapping: the bit the
exclusion removed is added back by the attribute step. -/
def connAttrsConflict : Conn :=
  { emptyConn with
      authPluginName := AUTH_NATIVE_PASSWORD
      salt := List.replicate 20 1
      ccaps := CLIENT_CONNECT_ATTRS
      clientExplicitOffCaps := CLIENT_CONNECT_ATTRS
      attributes := [("a", "b")] }

/-- Connection with a requested and simultaneously excluded
multi-statements capability, a bit no later step re-adds. -/
def connMultiStmtConflict : Conn :=
  { emptyConn with
      authPluginName := AUTH_NATIVE_PASSWORD
      salt := List.replicate 20 1
      ccaps := CLIENT_MULTI_STATEMENTS
      clientExplicitOffCaps := CLIENT_MULTI_STATEMENTS }

/-- C4 counterexample: with connect-attrs both requested and explicitly
excluded, and a non-empty attribute mapping, the final capability flags
computed by writeAuthHandshake do contain the excluded bit, so the
exclusion does not always win. -/
theorem finalCapability_exclusion_cex :
    connAttrsConflict.ccaps.testBit 20 = true ∧
    connAttrsConflict.clientExplicitOffCaps.testBit 20 = true ∧
    CLIENT_CONNECT_ATTRS.testBit 20 = true ∧
    (finalCapability connAttrsConflict 2
      (genAttributes connAttrsConflict).length).testBit 20 = true := by decide

/-- Capability bits survive an if-guarded union only through the operands:
a helper for the exclusion theorem. -/
theorem testBit_ite_lor_false {P : Prop} [Decidable P] {X C k : Nat}
    (hX : X.testBit k = false) (hC : P → C.testBit k = false) :
    (if P then X ||| C else X).testBit k = false := by
  split_ifs with h
  · simp [Nat.testBit_lor, hX, hC h]
  · exact hX

/-- C4 (amended): a bit that is both requested and explicitly excluded is
absent from the final capability flags, provided it is not one of the four
bits a later step of writeAuthHandshake adds back on its own condition
(SSL when TLS is configured, connect-with-db when a database name is set,
connect-attrs when attributes are present, the length-encoded-auth bit
when the auth response exceeds 250 bytes). -/
theorem finalCapability_exclusion (c : Conn) (authLen attrLen k : Nat)
    (_hreq : c.ccaps.testBit k = true)
    (hoff : c.clientExplicitOffCaps.testBit k = true)
    (hkssl : c.tlsConfig = true → k ≠ 11)
    (hkdb : 0 < (strBytes c.db).length → k ≠ 3)
    (hkattr : 0 < attrLen → k ≠ 20)
    (hklenenc : 250 < authLen → k ≠ 21) :
    (finalCapability c authLen attrLen).testBit k = false := by
  have hone : (AppendLengthEncodedInteger authLen).length = 1 ↔ authLen ≤ 250 :=
    appendLEI_length_one authLen
  have eLENENC : CLIENT_PLUGIN_AUTH_LENENC_CLIENT_DATA = 2 ^ 21 := by decide
  have eCWDB : CLIENT_CONNECT_WITH_DB = 2 ^ 3 := by decide
  have eCATTRS : CLIENT_CONNECT_ATTRS = 2 ^ 20 := by decide
  have eSSL : CLIENT_SSL = 2 ^ 11 := by decide
  simp only [finalCapability, capabilityWithSSL]
  apply testBit_ite_lor_false
  · apply testBit_ite_lor_false
    · apply testBit_ite_lor_false
      · apply testBit_ite_lor_false
        · simp [andNot_testBit, hoff]
        · intro htls
          rw [eSSL, Nat.testBit_two_pow]
          simp only [decide_eq_false_iff_not]
          exact fun hk => hkssl htls hk.symm
      · intro hlen
        rw [eLENENC, Nat.testBit_two_pow]
        simp only [decide_eq_false_iff_not]
        have h250 : 250 < authLen := by
          by_contra hle2
          have := hone.mpr (by omega)
          omega
        exact fun hk => hklenenc h250 hk.symm
    · intro hdbp
      rw [eCWDB, Nat.testBit_two_pow]
      simp only [decide_eq_false_iff_not]
      exact fun hk => hkdb hdbp hk.symm
  · intro hattrp
    rw [eCATTRS, Nat.testBit_two_pow]
    simp only [decide_eq_false_iff_not]
    exact fun hk => hkattr hattrp hk.symm

/-- Closed witness for finalCapability_exclusion: the multi-statements
bit, requested and excluded at once, is absent from the final flags. -/
theorem finalCapability_exclusion_witness :
    (finalCapability connMultiStmtConflict 2 0).testBit 16 = false :=
  finalCapability_exclusion connMultiStmtConflict 2 0 16 (by decide) (by decide)
    (by decide) (by decide) (by decide) (by decide)

/-- Packet whose server-version string never terminates: protocol byte 10
followed by version bytes with no 0x00 anywhere. -/
def unterminatedVersionPacket : List Nat := [10, 65, 66]

/-- Packet that parses up to the plugin-name section (plugin-auth
negotiated, no secure-connection bit) and then offers a plugin name with
no 0x00 terminator in the rest of the buffer. -/
def unterminatedPluginPacket : List Nat :=
  [10, 97, 0] ++ [1, 2, 3, 4] ++ [1, 1, 1, 1, 1, 1, 1, 1] ++ [0] ++ [0, 2]
  ++ [8] ++ [0, 0] ++ [8, 0] ++ [0] ++ List.replicate 10 0 ++ [97]

/-- C2: on a buffer whose version string (or plugin name) has no
terminating zero byte, readInitialHandshake does not return a
MalformedPacket error: it evaluates a slice with the -1 of the failed
IndexByte call and panics (result none), for the version string because
data[1:0] is malformed and for the plugin name because data[pos:pos-1]
is. -/
theorem readInitialHandshake_unterminated_crash :
    readInitialHandshake emptyConn unterminatedVersionPacket = none ∧
    readInitialHandshake emptyConn unterminatedPluginPacket = none := by decide

/-- Byte length of every supported auth plugin name is at most 21, with
equality exactly for the native and caching-sha2 names. -/
theorem supported_plugin_name_length (name : String)
    (h : authPluginAllowed name = true) : (strBytes name).length ≤ 21 := by
  have hmem : name = AUTH_NATIVE_PASSWORD ∨ name = AUTH_SHA256_PASSWORD ∨
      name = AUTH_CACHING_SHA2_PASSWORD ∨ name = AUTH_MARIADB_ED25519 := by
    simpa [authPluginAllowed, supportedAuthPlugins] using h
  rcases hmem with h' | h' | h' | h' <;> subst h' <;> decide

/-- Length of the serialized section concatenation, section by section. -/
theorem hsSections_length (c : Conn) (cap collByte : Nat)
    (lei auth attrData : List Nat) (addNull : Bool) :
    (hsSections c cap collByte lei auth addNull attrData).length
      = 32 + (strBytes c.user).length + 1 + lei.length + auth.length
        + (if addNull then 1 else 0)
        + (if 0 < (strBytes c.db).length then (strBytes c.db).length + 1 else 0)
        + (strBytes c.authPluginName).length + 1 + attrData.length
        + (if 0 < c.ccaps &&& CLIENT_ZSTD_COMPRESSION_ALGORITHM then 1 else 0) := by
  simp only [hsSections, uint32LE, List.length_append, List.length_replicate,
    List.length_cons, List.length_nil, apply_ite List.length]


/-- C1 counterexample: for the sha256-password plugin (a supported plugin
whose name is 15 bytes, not the hard-coded 21), the written payload is 57
bytes while the serialized sections add up to 51 bytes, so the
packet-length field does not equal the sum of the sections: six extra
zero bytes trail the packet. -/
theorem writeAuthHandshake_length_field_cex :
    authPluginAllowed connSha256.authPluginName = true ∧
    payloadLengths (writeAuthHandshake ext0 connSha256) = some [57] ∧
    (hsSections connSha256 (finalCapability connSha256 0 0) 255
      (AppendLengthEncodedInteger 0) [] true []).length = 51 ∧
    (57 : Nat) ≠ 51 := by decide

/-- C1 (amended): the packet-length field computed by writeAuthHandshake
exceeds the summed length of the serialized sections by exactly
21 minus the plugin-name byte length (the source hard-codes a 21-byte
plugin-name slot); the two agree exactly when the negotiated plugin name
is 21 bytes long (mysql_native_password, caching_sha2_password), and the
written payload is always exactly as long as the length field declares. -/
theorem hsLength_vs_sections (c : Conn) (cap collByte : Nat)
    (auth attrData : List Nat) (addNull : Bool)
    (h : authPluginAllowed c.authPluginName = true) :
    hsLength c (AppendLengthEncodedInteger auth.length).length auth.length addNull
        attrData.length
      = (hsSections c cap collByte (AppendLengthEncodedInteger auth.length) auth
          addNull attrData).length
        + (21 - (strBytes c.authPluginName).length) ∧
    (hsLength c (AppendLengthEncodedInteger auth.length).length auth.length addNull
        attrData.length
      = (hsSections c cap collByte (AppendLengthEncodedInteger auth.length) auth
          addNull attrData).length
      ↔ (strBytes c.authPluginName).length = 21) ∧
    (hsSections c cap collByte (AppendLengthEncodedInteger auth.length) auth addNull
        attrData
      ++ List.replicate
        (hsLength c (AppendLengthEncodedInteger auth.length).length auth.length
            addNull attrData.length
          - (hsSections c cap collByte (AppendLengthEncodedInteger auth.length) auth
              addNull attrData).length) 0).length
      = hsLength c (AppendLengthEncodedInteger auth.length).length auth.length addNull
          attrData.length := by
  have hname : (strBytes c.authPluginName).length ≤ 21 :=
    supported_plugin_name_length c.authPluginName h
  simp only [hsLength, List.length_append, List.length_replicate, hsSections_length]
  split_ifs <;> omega

/-- Closed witness for hsLength_vs_sections at the sha256-password
connection: the length field is the section sum plus six. -/
theorem hsLength_vs_sections_witness :
    hsLength connSha256 (AppendLengthEncodedInteger 0).length 0 true 0
      = (hsSections connSha256 0 255 (AppendLengthEncodedInteger 0) [] true []).length
        + (21 - (strBytes connSha256.authPluginName).length) :=
  (hsLength_vs_sections connSha256 0 255 [] [] true (by decide)).1

/-- Connection with transport security configured (sequence counter 5, so
the counter arithmetic across the swap is visible). -/
def connTLS : Conn :=
  { emptyConn with
      authPluginName := AUTH_NATIVE_PASSWORD
      salt := List.replicate 20 1
      tlsConfig := true
      sequence := 5 }

/-- C3 counterexample: with transport security configured the packet
written before the security handshake carries 32 bytes of payload
(capability flags 4, max-packet-size 4, collation 1, filler 23), not 13
bytes as claimed. -/
theorem writeAuthHandshake_sslrequest_cex :
    payloadLengths (writeAuthHandshake ext0 connTLS) = some [32, 58] ∧
    (32 : Nat) ≠ 13 := by decide

/-- C3 (amended): when transport security is configured and the run
succeeds, writeAuthHandshake first writes the header-only packet (the
32-byte payload prefix: capability flags, max-packet-size, collation
byte, 23 filler bytes) at the pre-handshake sequence number, then starts
the TLS handshake, and the packet written after the transport swap
carries sequence number exactly one greater than before the header
packet was sent: the counter is preserved, not reset, across the swap. -/
theorem writeAuthHandshake_tls_events (ext : Ext) (c : Conn) (auth : List Nat)
    (addNull : Bool) (collID : Nat)
    (hallowed : authPluginAllowed c.authPluginName = true)
    (htls : c.tlsConfig = true)
    (hgen : genAuthResponse ext c c.salt = some (.ok (auth, addNull)))
    (hcoll : ext.getCollation
      (if c.collation.length = 0 then DEFAULT_COLLATION_NAME else c.collation)
      = some collID)
    (htlsok : ext.tlsHandshake = .ok ()) :
    writeAuthHandshake ext c
      = some (.ok
          ([.wrote c.sequence
              ((hsFullPayload c auth addNull collID).take (4 + 4 + 1 + 23)),
            .tlsStart,
            .wrote (c.sequence + 1) (hsFullPayload c auth addNull collID)],
           { c with sequence := c.sequence + 2 })) ∧
    ((hsFullPayload c auth addNull collID).take (4 + 4 + 1 + 23)).length = 32 := by
  have h32 : 32 ≤ (hsFullPayload c auth addNull collID).length := by
    simp only [hsFullPayload, List.length_append, hsSections_length]
    omega
  constructor
  · simp [writeAuthHandshake, hallowed, hgen, hcoll, htls, htlsok]
  · simp only [List.length_take]
    omega

/-- Closed witness for writeAuthHandshake_tls_events at the concrete TLS
connection: the 32-byte SSL-request payload goes out at sequence 5 and
the full packet at sequence 6. -/
theorem writeAuthHandshake_tls_events_witness :
    writeAuthHandshake ext0 connTLS
      = some (.ok
          ([.wrote connTLS.sequence
              ((hsFullPayload connTLS [9, 9] false 255).take (4 + 4 + 1 + 23)),
            .tlsStart,
            .wrote (connTLS.sequence + 1) (hsFullPayload connTLS [9, 9] false 255)],
           { connTLS with sequence := connTLS.sequence + 2 })) ∧
    ((hsFullPayload connTLS [9, 9] false 255).take (4 + 4 + 1 + 23)).length = 32 :=
  writeAuthHandshake_tls_events ext0 connTLS [9, 9] false 255
    (by decide) rfl (by decide) rfl rfl

/-- First zero byte of a buffer that starts with zero-free bytes v. -/
theorem indexByte0_append (v r : List Nat) (hv : ∀ x ∈ v, x ≠ 0) :
    indexByte0 (v ++ 0 :: r) = some v.length := by
  induction v with
  | nil => simp [indexByte0]
  | cons b t ih =>
    have hb : b ≠ 0 := hv b (by simp)
    have iht := ih fun x hx => hv x (by simp [hx])
    simp [indexByte0, hb, iht]

/-- takeN on an explicit two-byte prefix. -/
theorem takeN_two (a b : Nat) (l : List Nat) :
    takeN 2 (a :: b :: l) = some ([a, b], l) := by
  unfold takeN
  rw [if_pos (by simp)]
  simp

/-- takeN on an explicit four-byte prefix. -/
theorem takeN_four (a b c d : Nat) (l : List Nat) :
    takeN 4 (a :: b :: c :: d :: l) = some ([a, b, c, d], l) := by
  unfold takeN
  rw [if_pos (by simp)]
  simp

/-- takeN on an explicit eight-byte prefix. -/
theorem takeN_eight (a b c d e f g h : Nat) (l : List Nat) :
    takeN 8 (a :: b :: c :: d :: e :: f :: g :: h :: l)
      = some ([a, b, c, d, e, f, g, h], l) := by
  unfold takeN
  rw [if_pos (by simp)]
  simp

/-- takeN splits an append at the length of its left part. -/
theorem takeN_of_len {l : List Nat} {n : Nat} (r : List Nat) (h : l.length = n) :
    takeN n (l ++ r) = some (l, r) := by
  subst h
  simp [takeN, List.take_left, List.drop_left]

/-- Dropping one byte past a zero-free prefix lands after the zero. -/
theorem drop_len_succ (l : List Nat) (a : Nat) (r : List Nat) :
    (l ++ a :: r).drop (l.length + 1) = r := by
  rw [show l ++ a :: r = (l ++ [a]) ++ r by simp]
  exact List.drop_left' (by simp)

/-- Packet family for the challenge-assembly theorem: a version-10 packet
with abstract version bytes, connection id, 8 challenge bytes, capability
words, status bytes, auth-plugin-data-length byte 21, 10 reserved bytes,
a 12-byte challenge part 2, one boundary byte and a zero-terminated
plugin name. -/
def handshakePacket21 (version reserved part2 pname tail : List Nat)
    (c1 c2 c3 c4 s1 s2 s3 s4 s5 s6 s7 s8 l0 l1 cs t0 t1 h0 h1 bb : Nat) : List Nat :=
  let tailPart : List Nat := pname ++ (0 :: tail)
  let secPart : List Nat := part2 ++ (bb :: tailPart)
  let extPart : List Nat := cs :: ([t0, t1] ++ ([h0, h1] ++ (21 :: (reserved ++ secPart))))
  let capPart : List Nat := [l0, l1] ++ extPart
  let saltPart : List Nat := [s1, s2, s3, s4, s5, s6, s7, s8] ++ (0 :: capPart)
  let cidPart : List Nat := [c1, c2, c3, c4] ++ saltPart
  10 :: (version ++ (0 :: cidPart))

/-- C5: a well-formed initial-handshake packet advertising
auth_plugin_data_len = 21 whose merged capability flags carry the
secure-connection bit (and, as the nonzero length byte forces, the
plugin-auth bit) yields a challenge of exactly 20 bytes: the 8 bytes of
part 1 followed by the 12 retained bytes of part 2 (13 consumed, the
boundary byte dropped). -/
theorem readInitialHandshake_salt20
    (c : Conn) (version reserved part2 pname tail : List Nat)
    (c1 c2 c3 c4 s1 s2 s3 s4 s5 s6 s7 s8 l0 l1 cs t0 t1 h0 h1 bb : Nat)
    (hv : ∀ x ∈ version, x ≠ 0)
    (hres : reserved.length = 10) (hp2 : part2.length = 12)
    (hpn : ∀ x ∈ pname, x ≠ 0)
    (h41 : leNat [l0, l1] &&& CLIENT_PROTOCOL_41 ≠ 0)
    (hssl : c.tlsConfig = false ∨ leNat [l0, l1] &&& CLIENT_SSL ≠ 0)
    (hsec : (leNat [h0, h1] <<< 16 ||| leNat [l0, l1]) &&& CLIENT_SECURE_CONNECTION ≠ 0)
    (hplug : (leNat [h0, h1] <<< 16 ||| leNat [l0, l1]) &&& CLIENT_PLUGIN_AUTH ≠ 0) :
    parsedSalt (readInitialHandshake c
        (handshakePacket21 version reserved part2 pname tail
          c1 c2 c3 c4 s1 s2 s3 s4 s5 s6 s7 s8 l0 l1 cs t0 t1 h0 h1 bb))
      = some ([s1, s2, s3, s4, s5, s6, s7, s8] ++ part2) ∧
    ([s1, s2, s3, s4, s5, s6, s7, s8] ++ part2).length = 20 := by
  have hsslP : ¬ (leNat [l0, l1] &&& CLIENT_SSL = 0 ∧ c.tlsConfig = true) := by
    rcases hssl with h | h
    · simp [h]
    · simp [h]
  have hsalt : ∀ c' : Conn, (applyDefaultPlugin c').salt = c'.salt := by
    intro c'
    unfold applyDefaultPlugin
    split <;> rfl
  refine ⟨?_, by simp [hp2]⟩
  simp [handshakePacket21, readInitialHandshake, readInitialHandshakeTail,
    readInitialHandshakePlugin, parsedSalt, hsalt,
    indexByte0_append version _ hv, indexByte0_append pname _ hpn,
    takeN_two, takeN_four, takeN_eight,
    takeN_of_len, drop_len_succ, List.drop_left', List.drop_left,
    hres, hp2, h41, hsec, hplug, hsslP,
    ERR_HEADER, ClassicProtocolVersion, XProtocolVersion]

/-- Closed witness for readInitialHandshake_salt20: a fully concrete
packet with auth_plugin_data_len 21, secure-connection and plugin-auth
bits set, parses to a 20-byte challenge. -/
theorem readInitialHandshake_salt20_witness :
    parsedSalt (readInitialHandshake emptyConn
        (handshakePacket21 [53] (List.replicate 10 0)
          [21, 22, 23, 24, 25, 26, 27, 28, 29, 30, 31, 32]
          (strBytes AUTH_NATIVE_PASSWORD) []
          1 2 3 4 11 12 13 14 15 16 17 18 0 130 8 0 0 8 0 0))
      = some ([11, 12, 13, 14, 15, 16, 17, 18]
          ++ [21, 22, 23, 24, 25, 26, 27, 28, 29, 30, 31, 32]) ∧
    (([11, 12, 13, 14, 15, 16, 17, 18]
        ++ [21, 22, 23, 24, 25, 26, 27, 28, 29, 30, 31, 32] : List Nat)).length = 20 :=
  readInitialHandshake_salt20 emptyConn [53] (List.replicate 10 0)
    [21, 22, 23, 24, 25, 26, 27, 28, 29, 30, 31, 32]
    (strBytes AUTH_NATIVE_PASSWORD) []
    1 2 3 4 11 12 13 14 15 16 17 18 0 130 8 0 0 8 0 0
    (by decide) (by decide) (by decide) (by decide)
    (by decide) (by decide) (by decide) (by decide)

end GoMysql